import Mathlib

/-!
Verification of the frame-synchronized measurement pipeline of the
MediaPipe wingspan/hand-distance repository.

The repository contains three near-duplicate React components, each a
detection loop ("tick") feeding a geometry computation:

* `src/unnamed/part_000` — Known-Reference pose variant (`detectPose`):
  shoulder landmarks (indices 11/12) give a reference pixel separation,
  from which camera distance is inferred via a pinhole model with an
  assumed 70° horizontal field of view and a 45 cm shoulder width; the
  wrist separation (indices 15/16) is then converted to a wingspan.
* `src/app/page.tsx`, first component (`detectHands`): hand-distance
  variant; distance between two middle-finger tips (index 12 of each
  hand) via a fixed scale `(pixels / width) * 50`.
* `src/app/page.tsx`, second component (`detectHands`): Fixed-Distance
  wingspan variant; pixel separation times `fovWidthCm / width` with
  `CAMERA_DISTANCE = 150`.

JavaScript numbers are modelled as exact real numbers, except at the
division and multiplication steps where IEEE infinities and NaN can
arise (division by zero); those are modelled explicitly by `JSVal`,
with `JSVal.num` for finite values, `JSVal.inf` for signed infinity
(`true` = positive) and `JSVal.nan`.  All divisors produced by the code
are either positive-or-zero (square roots, widths) so the sign of a
zero divisor is always `+0`, which is what `jsdiv` implements.

React state `number | null` is modelled as `Option JSVal` (`none` is
the "unavailable" state shown by the presentation layer).  The
animation-frame tick of each component is modelled as a state
transition function which also reports whether a detection call
(`detectForVideo`) was issued during the tick.
-/

/-- A single detected landmark, with normalized image-fraction
coordinates `x`, `y` and relative depth `z` (same unit scale as `x`). -/
structure Landmark where
  x : ℝ
  y : ℝ
  z : ℝ

/-- A JavaScript number at a point where infinities or NaN may appear:
a finite real, a signed infinity (`true` = `+Infinity`), or `NaN`. -/
inductive JSVal where
  | num : ℝ → JSVal
  | inf : Bool → JSVal
  | nan : JSVal

/-- Whether a JavaScript value is an ordinary finite number. -/
def JSVal.isFinite : JSVal → Bool
  | .num _ => true
  | _ => false

/-- JavaScript division of two finite numbers (`a / b`), where the
denominator, when zero, is `+0` (all divisors in this code are square
roots or pixel widths): `a / +0` is `+Infinity` for `a > 0`,
`-Infinity` for `a < 0` and `NaN` for `a = 0`. -/
noncomputable def jsdiv (a b : ℝ) : JSVal :=
  if b = 0 then
    if 0 < a then .inf true else if a < 0 then .inf false else .nan
  else .num (a / b)

/-- JavaScript multiplication extended to infinities and NaN. -/
noncomputable def JSVal.mul : JSVal → JSVal → JSVal
  | .nan, _ => .nan
  | _, .nan => .nan
  | .num a, .num b => .num (a * b)
  | .num a, .inf s => if a = 0 then .nan else if 0 < a then .inf s else .inf (!s)
  | .inf s, .num a => if a = 0 then .nan else if 0 < a then .inf s else .inf (!s)
  | .inf s, .inf t => .inf (s == t)

/-- JavaScript division extended to infinities and NaN (denominator
zero is `+0`, as in `jsdiv`). -/
noncomputable def JSVal.div : JSVal → JSVal → JSVal
  | .nan, _ => .nan
  | _, .nan => .nan
  | .num a, .num b => jsdiv a b
  | .num _, .inf _ => .num 0
  | .inf s, .num b => if 0 ≤ b then .inf s else .inf (!s)
  | .inf _, .inf _ => .nan

/-- `landmarks[i]`: landmark access by anatomical index.  Real frames
always carry the full fixed schema (33 pose points, 21 hand points), so
the default value is never consulted for schema-complete frames. -/
def lmGet (l : List Landmark) (i : ℕ) : Landmark := l.getD i ⟨0, 0, 0⟩

/-- `ASSUMED_SHOULDER_WIDTH_CM` from `src/unnamed/part_000`. -/
def ASSUMED_SHOULDER_WIDTH_CM : ℝ := 45

/-- `focalLengthPixels = canvas.width / (2 * Math.tan((fovDegrees / 2) * (Math.PI / 180)))`
with `fovDegrees = 70` (`src/unnamed/part_000`, line 161). -/
noncomputable def focalLengthPixels (W : ℝ) : ℝ :=
  W / (2 * Real.tan ((70 / 2) * (Real.pi / 180)))

/-- Pixel separation of two landmarks: fractional coordinates scaled by
the frame's pixel dimensions component-wise, then the Euclidean norm
(`Math.sqrt(dx*dx + dy*dy)`). -/
noncomputable def pixelSep (W H : ℝ) (a b : Landmark) : ℝ :=
  Real.sqrt (((b.x - a.x) * W) * ((b.x - a.x) * W) +
    ((b.y - a.y) * H) * ((b.y - a.y) * H))

/-- 3-D pixel separation used by the hand-distance variant: also
incorporates `dz = (z2 - z1) * canvas.width` (`src/app/page.tsx`,
lines 143-147). -/
noncomputable def pixelSep3 (W H : ℝ) (a b : Landmark) : ℝ :=
  Real.sqrt (((b.x - a.x) * W) * ((b.x - a.x) * W) +
    ((b.y - a.y) * H) * ((b.y - a.y) * H) +
    ((b.z - a.z) * W) * ((b.z - a.z) * W))

/-- `calculatedDistance = (ASSUMED_SHOULDER_WIDTH_CM * focalLengthPixels) / shoulderWidthPixels`
(`src/unnamed/part_000`, line 164). -/
noncomputable def calculatedDistance (W refSep : ℝ) : JSVal :=
  jsdiv (ASSUMED_SHOULDER_WIDTH_CM * focalLengthPixels W) refSep

/-- `wingspanCm = (wingspanPixels * calculatedDistance) / focalLengthPixels`
(`src/unnamed/part_000`, line 173). -/
noncomputable def wingspanCmVal (W refSep targetSep : ℝ) : JSVal :=
  JSVal.div (JSVal.mul (.num targetSep) (calculatedDistance W refSep))
    (.num (focalLengthPixels W))

/-- The Known-Reference geometry computation of `detectPose`
(`src/unnamed/part_000`, lines 144-174): shoulders are indices 11/12,
wrists 15/16; returns `(calculatedDistance, wingspanCm)`. -/
noncomputable def poseMeasure (W H : ℝ) (lms : List Landmark) : JSVal × JSVal :=
  (calculatedDistance W (pixelSep W H (lmGet lms 11) (lmGet lms 12)),
   wingspanCmVal W (pixelSep W H (lmGet lms 11) (lmGet lms 12))
     (pixelSep W H (lmGet lms 15) (lmGet lms 16)))

/-- Measurement State of the pose component: `lastVideoTime` plus the
two React state slots `distance` and `wingspan` (`null` = `none`). -/
structure PoseState where
  lastVideoTime : ℚ
  distance : Option JSVal
  wingspan : Option JSVal

/-- What one animation-frame tick observes: the video's pause/ended
flags, its pixel dimensions, the current presentation timestamp, and
the landmark frame the detector would return if invoked this tick. -/
structure FrameInput where
  paused : Bool
  ended : Bool
  videoWidth : ℝ
  videoHeight : ℝ
  currentTime : ℚ
  frame : List (List Landmark)

/-- One tick of the pose detection loop (`src/unnamed/part_000`,
lines 101-207): skip when paused/ended; skip when the timestamp equals
`lastVideoTime`; otherwise record the timestamp, invoke detection
(the returned `Bool`), and either store both measurements (when at
least one subject is present — the guard is `landmarks.length > 0`)
or reset both to `null`. -/
noncomputable def detectPose (s : PoseState) (i : FrameInput) : PoseState × Bool :=
  if i.paused || i.ended then (s, false)
  else if i.currentTime = s.lastVideoTime then (s, false)
  else if 0 < i.frame.length then
    let m := poseMeasure i.videoWidth i.videoHeight (i.frame.headD [])
    (⟨i.currentTime, some m.1, some m.2⟩, true)
  else (⟨i.currentTime, none, none⟩, true)

/-- `distanceCm = (distancePixels / canvas.width) * 50` over the two
middle-finger tips, hand-distance variant (`src/app/page.tsx`,
lines 139-151). -/
noncomputable def distanceCmVal (W H : ℝ) (hand1 hand2 : List Landmark) : JSVal :=
  JSVal.mul (jsdiv (pixelSep3 W H (lmGet hand1 12) (lmGet hand2 12)) W) (.num 50)

/-- Measurement State of the hand-distance component. -/
structure HandState where
  lastVideoTime : ℚ
  distance : Option JSVal

/-- One tick of the hand-distance detection loop (`src/app/page.tsx`,
lines 96-169): same frame gate; the measurement is stored only when
`results.landmarks.length === 2`, otherwise reset to `null`. -/
noncomputable def detectHandsDistance (s : HandState) (i : FrameInput) : HandState × Bool :=
  if i.paused || i.ended then (s, false)
  else if i.currentTime = s.lastVideoTime then (s, false)
  else if i.frame.length = 2 then
    (⟨i.currentTime,
      some (distanceCmVal i.videoWidth i.videoHeight (i.frame.headD []) (i.frame.getD 1 []))⟩,
      true)
  else (⟨i.currentTime, none⟩, true)

/-- `CAMERA_DISTANCE` of the Fixed-Distance variant (`src/app/page.tsx`,
line 248). -/
def CAMERA_DISTANCE : ℝ := 150

/-- `fovWidthCm = 2 * CAMERA_DISTANCE * Math.tan((fovDegrees / 2) * (Math.PI / 180))`
with `fovDegrees = 70` (`src/app/page.tsx`, line 387). -/
noncomputable def fovWidthCm : ℝ :=
  2 * CAMERA_DISTANCE * Real.tan ((70 / 2) * (Real.pi / 180))

/-- The source's pixel-to-cm ratio `fovWidthCm / canvas.width`
(`src/app/page.tsx`, line 388). -/
noncomputable def pixelToCmFactor (W : ℝ) : JSVal := jsdiv fovWidthCm W

/-- `wingspanCm = distancePixels * pixelToCmRatio` of the Fixed-Distance
variant (`src/app/page.tsx`, line 391). -/
noncomputable def wingspanFixedVal (W p : ℝ) : JSVal :=
  JSVal.mul (.num p) (pixelToCmFactor W)

/-- Measurement State of the Fixed-Distance wingspan component. -/
structure WingState where
  lastVideoTime : ℚ
  wingspan : Option JSVal

/-- One tick of the Fixed-Distance wingspan loop (`src/app/page.tsx`,
lines 331-418): same frame gate; stores the wingspan only when exactly
two hands are detected, otherwise resets it to `null`. -/
noncomputable def detectHandsWingspan (s : WingState) (i : FrameInput) : WingState × Bool :=
  if i.paused || i.ended then (s, false)
  else if i.currentTime = s.lastVideoTime then (s, false)
  else if i.frame.length = 2 then
    (⟨i.currentTime,
      some (wingspanFixedVal i.videoWidth
        (pixelSep i.videoWidth i.videoHeight
          (lmGet (i.frame.headD []) 12) (lmGet (i.frame.getD 1 []) 12)))⟩,
      true)
  else (⟨i.currentTime, none⟩, true)

/-! ### Basic facts about the geometry constants -/

lemma tan35_pos : 0 < Real.tan ((70 / 2) * (Real.pi / 180)) := by
  apply Real.tan_pos_of_pos_of_lt_pi_div_two
  · positivity
  · nlinarith [Real.pi_pos]

lemma focalLengthPixels_pos {W : ℝ} (hW : 0 < W) : 0 < focalLengthPixels W := by
  unfold focalLengthPixels
  exact div_pos hW (mul_pos two_pos tan35_pos)

lemma pixelSep_self (W H : ℝ) (a : Landmark) : pixelSep W H a a = 0 := by
  simp [pixelSep]

lemma jsdiv_of_ne {b : ℝ} (a : ℝ) (h : b ≠ 0) : jsdiv a b = .num (a / b) := by
  simp [jsdiv, h]

lemma jsdiv_pos_zero {a : ℝ} (h : 0 < a) : jsdiv a 0 = .inf true := by
  simp [jsdiv, h]

/-! ### C1: similar-triangles round trip -/

/-- C1: In Known-Reference mode, when the reference pixel separation
`p_ref = L_ref * f / D` and the target pixel separation
`p_target = L_target * f / D` are both projected from the same real
camera distance `D > 0` with the pipeline's focal length
`f = focalLengthPixels W > 0` (any frame width `W > 0`) and the known
reference length `L_ref = ASSUMED_SHOULDER_WIDTH_CM`, the pipeline
recovers the camera distance exactly, and the recovered target length
(`p_target * (L_ref * f / p_ref) / f`) equals the original target
length exactly. -/
theorem known_reference_round_trip (W D Lt : ℝ) (hW : 0 < W) (hD : 0 < D) :
    calculatedDistance W (ASSUMED_SHOULDER_WIDTH_CM * focalLengthPixels W / D) =
      JSVal.num D ∧
    wingspanCmVal W (ASSUMED_SHOULDER_WIDTH_CM * focalLengthPixels W / D)
      (Lt * focalLengthPixels W / D) = JSVal.num Lt := by
  have hf : 0 < focalLengthPixels W := focalLengthPixels_pos hW
  have hL : (0 : ℝ) < ASSUMED_SHOULDER_WIDTH_CM := by norm_num [ASSUMED_SHOULDER_WIDTH_CM]
  have hp : ASSUMED_SHOULDER_WIDTH_CM * focalLengthPixels W / D ≠ 0 :=
    ne_of_gt (div_pos (mul_pos hL hf) hD)
  have hdist : calculatedDistance W (ASSUMED_SHOULDER_WIDTH_CM * focalLengthPixels W / D) =
      JSVal.num D := by
    rw [calculatedDistance, jsdiv_of_ne _ hp]
    congr 1
    field_simp
  refine ⟨hdist, ?_⟩
  rw [wingspanCmVal, hdist]
  simp only [JSVal.mul, JSVal.div]
  rw [jsdiv_of_ne _ (ne_of_gt hf)]
  congr 1
  field_simp

/-- Witness for C1 at `W = 1280`, `D = 100`, `L_target = 180`. -/
theorem known_reference_round_trip_witness :
    calculatedDistance 1280 (ASSUMED_SHOULDER_WIDTH_CM * focalLengthPixels 1280 / 100) =
      JSVal.num 100 ∧
    wingspanCmVal 1280 (ASSUMED_SHOULDER_WIDTH_CM * focalLengthPixels 1280 / 100)
      (180 * focalLengthPixels 1280 / 100) = JSVal.num 180 :=
  known_reference_round_trip 1280 100 180 (by norm_num) (by norm_num)

/-! ### C6: Fixed-Distance linearity -/

/-- C6: In Fixed-Distance mode (camera distance `CAMERA_DISTANCE`,
FOV 70° and frame width `W` held fixed), the derived length is linear
in the pixel separation: doubling the separation exactly doubles the
derived length, and a zero separation yields exactly the value zero;
moreover a processed two-hand frame whose middle-finger tips coincide
stores `some 0` (a value, not the unavailable state). -/
theorem fixed_distance_linearity (W p : ℝ) (s : WingState) (i : FrameInput)
    (hW : 0 < W) (hiW : 0 < i.videoWidth)
    (hp : i.paused = false) (he : i.ended = false)
    (ht : i.currentTime ≠ s.lastVideoTime) (h2 : i.frame.length = 2)
    (hcoin : lmGet (i.frame.headD []) 12 = lmGet (i.frame.getD 1 []) 12) :
    wingspanFixedVal W (2 * p) = JSVal.num (2 * (p * (fovWidthCm / W))) ∧
    wingspanFixedVal W p = JSVal.num (p * (fovWidthCm / W)) ∧
    wingspanFixedVal W 0 = JSVal.num 0 ∧
    (detectHandsWingspan s i).1.wingspan = some (JSVal.num 0) := by
  have hW' : W ≠ 0 := ne_of_gt hW
  have hval : ∀ q : ℝ, wingspanFixedVal W q = JSVal.num (q * (fovWidthCm / W)) := by
    intro q
    rw [wingspanFixedVal, pixelToCmFactor, jsdiv_of_ne _ hW']
    simp [JSVal.mul]
  refine ⟨by rw [hval]; ring_nf, hval p, by rw [hval]; norm_num, ?_⟩
  rw [detectHandsWingspan]
  rw [if_neg (by simp [hp, he]), if_neg (by simpa using ht), if_pos (by omega)]
  simp only [hcoin, pixelSep_self]
  have : wingspanFixedVal i.videoWidth 0 = JSVal.num 0 := by
    rw [wingspanFixedVal, pixelToCmFactor, jsdiv_of_ne _ (ne_of_gt hiW)]
    simp [JSVal.mul]
  rw [this]

/-- Witness for C6 at `W = 1280`, `p = 640`, with a processed two-hand
frame whose fingertip landmarks coincide. -/
theorem fixed_distance_linearity_witness :
    wingspanFixedVal 1280 (2 * 640) = JSVal.num (2 * (640 * (fovWidthCm / 1280))) ∧
    wingspanFixedVal 1280 640 = JSVal.num (640 * (fovWidthCm / 1280)) ∧
    wingspanFixedVal 1280 0 = JSVal.num 0 ∧
    (detectHandsWingspan ⟨-1, none⟩
      ⟨false, false, 1280, 720, 1, [[], []]⟩).1.wingspan = some (JSVal.num 0) :=
  fixed_distance_linearity 1280 640 ⟨-1, none⟩ ⟨false, false, 1280, 720, 1, [[], []]⟩
    (by norm_num) (by show (0 : ℝ) < 1280; norm_num) rfl rfl
    (by show (1 : ℚ) ≠ -1; decide) rfl rfl

/-! ### C3: idempotence under duplicate timestamps -/

lemma detectPose_lastVideoTime (s : PoseState) (i : FrameInput)
    (hp : i.paused = false) (he : i.ended = false) :
    ((detectPose s i).1).lastVideoTime = i.currentTime := by
  rw [detectPose, if_neg (by simp [hp, he])]
  split_ifs with h h2 <;> simp [h]

lemma detectHandsDistance_lastVideoTime (s : HandState) (i : FrameInput)
    (hp : i.paused = false) (he : i.ended = false) :
    ((detectHandsDistance s i).1).lastVideoTime = i.currentTime := by
  rw [detectHandsDistance, if_neg (by simp [hp, he])]
  split_ifs with h h2 <;> simp [h]

lemma detectHandsWingspan_lastVideoTime (s : WingState) (i : FrameInput)
    (hp : i.paused = false) (he : i.ended = false) :
    ((detectHandsWingspan s i).1).lastVideoTime = i.currentTime := by
  rw [detectHandsWingspan, if_neg (by simp [hp, he])]
  split_ifs with h h2 <;> simp [h]

/-- C3: For every pair of consecutive ticks (of any of the three
detection loops) that observe the same video timestamp — neither tick
paused or ended — the second tick invokes no detection call and
returns Measurement State exactly as the first tick left it. -/
theorem duplicate_timestamp_idempotent (sp : PoseState) (sh : HandState) (sw : WingState)
    (i1 i2 : FrameInput)
    (h1p : i1.paused = false) (h1e : i1.ended = false)
    (h2p : i2.paused = false) (h2e : i2.ended = false)
    (ht : i2.currentTime = i1.currentTime) :
    detectPose (detectPose sp i1).1 i2 = ((detectPose sp i1).1, false) ∧
    detectHandsDistance (detectHandsDistance sh i1).1 i2 =
      ((detectHandsDistance sh i1).1, false) ∧
    detectHandsWingspan (detectHandsWingspan sw i1).1 i2 =
      ((detectHandsWingspan sw i1).1, false) := by
  refine ⟨?_, ?_, ?_⟩
  · rw [detectPose, if_neg (by simp [h2p, h2e]),
      if_pos (by rw [detectPose_lastVideoTime sp i1 h1p h1e, ht])]
  · rw [detectHandsDistance, if_neg (by simp [h2p, h2e]),
      if_pos (by rw [detectHandsDistance_lastVideoTime sh i1 h1p h1e, ht])]
  · rw [detectHandsWingspan, if_neg (by simp [h2p, h2e]),
      if_pos (by rw [detectHandsWingspan_lastVideoTime sw i1 h1p h1e, ht])]

/-- Witness for C3: two playing ticks at timestamp `2`, the first
processing an empty frame, the second seeing a one-subject frame it
must nevertheless ignore. -/
theorem duplicate_timestamp_idempotent_witness :
    detectPose (detectPose ⟨-1, none, none⟩ ⟨false, false, 1280, 720, 2, []⟩).1
        ⟨false, false, 1280, 720, 2, [[]]⟩ =
      ((detectPose ⟨-1, none, none⟩ ⟨false, false, 1280, 720, 2, []⟩).1, false) ∧
    detectHandsDistance (detectHandsDistance ⟨-1, none⟩ ⟨false, false, 1280, 720, 2, []⟩).1
        ⟨false, false, 1280, 720, 2, [[]]⟩ =
      ((detectHandsDistance ⟨-1, none⟩ ⟨false, false, 1280, 720, 2, []⟩).1, false) ∧
    detectHandsWingspan (detectHandsWingspan ⟨-1, none⟩ ⟨false, false, 1280, 720, 2, []⟩).1
        ⟨false, false, 1280, 720, 2, [[]]⟩ =
      ((detectHandsWingspan ⟨-1, none⟩ ⟨false, false, 1280, 720, 2, []⟩).1, false) :=
  duplicate_timestamp_idempotent ⟨-1, none, none⟩ ⟨-1, none⟩ ⟨-1, none⟩
    ⟨false, false, 1280, 720, 2, []⟩ ⟨false, false, 1280, 720, 2, [[]]⟩
    rfl rfl rfl rfl rfl

/-! ### C4: subject-count gating of the Known-Reference pipeline -/

/-- Counterexample to C4 as stated: a processed frame with exactly two
detected subjects does NOT yield "unavailable" — the guard in the code
is `landmarks.length > 0`, so the measurement is computed from the
first subject. -/
theorem pose_two_subjects_still_measured :
    ((⟨false, false, 1280, 720, 1, [[], []]⟩ : FrameInput).frame.length = 2) ∧
    (detectPose ⟨-1, none, none⟩
      ⟨false, false, 1280, 720, 1, [[], []]⟩).1.distance ≠ none := by
  refine ⟨rfl, ?_⟩
  rw [detectPose, if_neg (by simp), if_neg (by decide), if_pos (by decide)]
  simp

/-- C4 (amended): In Known-Reference mode, for every processed frame
the Measurement is "unavailable" exactly when zero subjects are
detected; whenever at least one subject is present (the code's guard
is `length > 0`, not `length = 1`), a measurement is stored, computed
from the first subject. -/
theorem pose_availability_by_subject_count (s : PoseState) (i : FrameInput)
    (hp : i.paused = false) (he : i.ended = false)
    (ht : i.currentTime ≠ s.lastVideoTime) :
    (i.frame.length = 0 →
      (detectPose s i).1.distance = none ∧ (detectPose s i).1.wingspan = none) ∧
    (0 < i.frame.length →
      ∃ d w, (detectPose s i).1.distance = some d ∧
        (detectPose s i).1.wingspan = some w) := by
  rw [detectPose, if_neg (by simp [hp, he]), if_neg (by simpa using ht)]
  constructor
  · intro h0
    rw [if_neg (by omega)]
    exact ⟨rfl, rfl⟩
  · intro hpos
    rw [if_pos hpos]
    exact ⟨_, _, rfl, rfl⟩

/-- Witness for C4 (amended) on a processed one-subject frame. -/
theorem pose_availability_by_subject_count_witness :
    ((⟨false, false, 1280, 720, 1, [[]]⟩ : FrameInput).frame.length = 0 →
      (detectPose ⟨-1, none, none⟩ ⟨false, false, 1280, 720, 1, [[]]⟩).1.distance = none ∧
      (detectPose ⟨-1, none, none⟩ ⟨false, false, 1280, 720, 1, [[]]⟩).1.wingspan = none) ∧
    (0 < (⟨false, false, 1280, 720, 1, [[]]⟩ : FrameInput).frame.length →
      ∃ d w, (detectPose ⟨-1, none, none⟩ ⟨false, false, 1280, 720, 1, [[]]⟩).1.distance = some d ∧
        (detectPose ⟨-1, none, none⟩ ⟨false, false, 1280, 720, 1, [[]]⟩).1.wingspan = some w) :=
  pose_availability_by_subject_count ⟨-1, none, none⟩ ⟨false, false, 1280, 720, 1, [[]]⟩
    rfl rfl (by decide)

/-! ### The degenerate frame: coincident reference landmarks -/

lemma pixelSep_horizontal (W H : ℝ) (a b : Landmark) (hy : b.y = a.y)
    (hx : 0 ≤ (b.x - a.x) * W) : pixelSep W H a b = (b.x - a.x) * W := by
  rw [pixelSep, hy]
  convert Real.sqrt_mul_self hx using 2
  ring

/-- A pose subject whose shoulder landmarks (indices 11 and 12)
coincide at the image centre while the wrists (15 and 16) are spread
horizontally apart. -/
noncomputable def degSubject : List Landmark :=
  [⟨0, 0, 0⟩, ⟨0, 0, 0⟩, ⟨0, 0, 0⟩, ⟨0, 0, 0⟩, ⟨0, 0, 0⟩, ⟨0, 0, 0⟩,
   ⟨0, 0, 0⟩, ⟨0, 0, 0⟩, ⟨0, 0, 0⟩, ⟨0, 0, 0⟩, ⟨0, 0, 0⟩,
   ⟨0.5, 0.5, 0⟩, ⟨0.5, 0.5, 0⟩, ⟨0, 0, 0⟩, ⟨0, 0, 0⟩,
   ⟨0.3, 0.5, 0⟩, ⟨0.7, 0.5, 0⟩]

/-- A playing, fresh-timestamp 1280 × 720 frame carrying exactly one
subject, the degenerate one. -/
noncomputable def degInput : FrameInput := ⟨false, false, 1280, 720, 1, [degSubject]⟩

lemma poseMeasure_degenerate :
    poseMeasure 1280 720 degSubject = (JSVal.inf true, JSVal.inf true) := by
  have hf : 0 < focalLengthPixels 1280 := focalLengthPixels_pos (by norm_num)
  have hpos : (0 : ℝ) < ASSUMED_SHOULDER_WIDTH_CM * focalLengthPixels 1280 :=
    mul_pos (by norm_num [ASSUMED_SHOULDER_WIDTH_CM]) hf
  have href : pixelSep 1280 720 (lmGet degSubject 11) (lmGet degSubject 12) = 0 := by
    rw [show lmGet degSubject 12 = lmGet degSubject 11 from rfl]
    exact pixelSep_self _ _ _
  have htar : pixelSep 1280 720 (lmGet degSubject 15) (lmGet degSubject 16) = 512 := by
    rw [show lmGet degSubject 15 = (⟨0.3, 0.5, 0⟩ : Landmark) from rfl,
      show lmGet degSubject 16 = (⟨0.7, 0.5, 0⟩ : Landmark) from rfl,
      pixelSep_horizontal 1280 720 ⟨0.3, 0.5, 0⟩ ⟨0.7, 0.5, 0⟩ rfl (by norm_num)]
    norm_num
  have hd : calculatedDistance 1280 0 = JSVal.inf true := by
    rw [calculatedDistance, jsdiv_pos_zero hpos]
  rw [poseMeasure, href, htar, wingspanCmVal, hd]
  norm_num [JSVal.mul, JSVal.div, hf.le]

/-! ### C2: degenerate reference separation is NOT converted to "unavailable" -/

/-- C2 (code bug): on a processed frame whose two reference landmarks
coincide (`p_ref = 0`), the code performs the division anyway:
`+Infinity` is stored in BOTH Measurement State slots — the explicit
"unavailable" state (`none`) is not produced, and a non-finite value
does reach Measurement State, contrary to the spec's degenerate-input
policy. -/
theorem degenerate_reference_leaks_infinity :
    (detectPose ⟨-1, none, none⟩ degInput).1.distance = some (JSVal.inf true) ∧
    (detectPose ⟨-1, none, none⟩ degInput).1.wingspan = some (JSVal.inf true) ∧
    JSVal.isFinite (JSVal.inf true) = false := by
  rw [detectPose, if_neg (by simp [degInput]), if_neg (by decide), if_pos (by decide)]
  refine ⟨?_, ?_, rfl⟩
  · show some (poseMeasure 1280 720 degSubject).1 = some (JSVal.inf true)
    rw [poseMeasure_degenerate]
  · show some (poseMeasure 1280 720 degSubject).2 = some (JSVal.inf true)
    rw [poseMeasure_degenerate]

/-! ### C8: atomicity of Measurement State updates -/

/-- Counterexample to C8 as stated: the degenerate processed frame is
neither "sets both quantities to new finite values" nor "resets both
to the unavailable state" — both slots are set, but to `+Infinity`. -/
theorem degenerate_frame_not_both_finite :
    ¬ ((∃ a b : ℝ,
        (detectPose ⟨-1, none, none⟩ degInput).1.distance = some (JSVal.num a) ∧
        (detectPose ⟨-1, none, none⟩ degInput).1.wingspan = some (JSVal.num b)) ∨
      ((detectPose ⟨-1, none, none⟩ degInput).1.distance = none ∧
        (detectPose ⟨-1, none, none⟩ degInput).1.wingspan = none)) := by
  have hd : (detectPose ⟨-1, none, none⟩ degInput).1.distance = some (JSVal.inf true) := by
    rw [detectPose, if_neg (by simp [degInput]), if_neg (by decide), if_pos (by decide)]
    show some (poseMeasure 1280 720 degSubject).1 = some (JSVal.inf true)
    rw [poseMeasure_degenerate]
  rintro (⟨a, b, ha, hb⟩ | ⟨ha, hb⟩)
  · rw [hd] at ha
    simp at ha
  · rw [hd] at ha
    simp at ha

/-- C8 (amended): the Known-Reference pipeline preserves the invariant
"distance is unavailable iff wingspan is unavailable" across every
tick, and every processed frame either sets both quantities together
(possibly to non-finite values when the reference separation
degenerates) or resets both to unavailable together — never a mix. -/
theorem measurement_atomicity (s : PoseState) (i : FrameInput)
    (hinv : s.distance = none ↔ s.wingspan = none) :
    ((detectPose s i).1.distance = none ↔ (detectPose s i).1.wingspan = none) ∧
    (i.paused = false → i.ended = false → i.currentTime ≠ s.lastVideoTime →
      (∃ d w, (detectPose s i).1.distance = some d ∧
        (detectPose s i).1.wingspan = some w) ∨
      ((detectPose s i).1.distance = none ∧ (detectPose s i).1.wingspan = none)) := by
  rw [detectPose]
  split_ifs with h1 h2 h3
  · exact ⟨hinv, fun hp he _ => absurd h1 (by simp [hp, he])⟩
  · exact ⟨hinv, fun _ _ ht => absurd h2 ht⟩
  · exact ⟨by simp, fun _ _ _ => Or.inl ⟨_, _, rfl, rfl⟩⟩
  · exact ⟨by simp, fun _ _ _ => Or.inr ⟨rfl, rfl⟩⟩

/-- Witness for C8 (amended) on a processed empty frame starting from
an available state. -/
theorem measurement_atomicity_witness :
    ((detectPose ⟨-1, some (JSVal.num 3), some (JSVal.num 4)⟩
        ⟨false, false, 1280, 720, 1, []⟩).1.distance = none ↔
      (detectPose ⟨-1, some (JSVal.num 3), some (JSVal.num 4)⟩
        ⟨false, false, 1280, 720, 1, []⟩).1.wingspan = none) ∧
    ((⟨false, false, 1280, 720, 1, []⟩ : FrameInput).paused = false →
      (⟨false, false, 1280, 720, 1, []⟩ : FrameInput).ended = false →
      (⟨false, false, 1280, 720, 1, []⟩ : FrameInput).currentTime ≠
        (⟨-1, some (JSVal.num 3), some (JSVal.num 4)⟩ : PoseState).lastVideoTime →
      (∃ d w, (detectPose ⟨-1, some (JSVal.num 3), some (JSVal.num 4)⟩
          ⟨false, false, 1280, 720, 1, []⟩).1.distance = some d ∧
        (detectPose ⟨-1, some (JSVal.num 3), some (JSVal.num 4)⟩
          ⟨false, false, 1280, 720, 1, []⟩).1.wingspan = some w) ∨
      ((detectPose ⟨-1, some (JSVal.num 3), some (JSVal.num 4)⟩
          ⟨false, false, 1280, 720, 1, []⟩).1.distance = none ∧
        (detectPose ⟨-1, some (JSVal.num 3), some (JSVal.num 4)⟩
          ⟨false, false, 1280, 720, 1, []⟩).1.wingspan = none)) :=
  measurement_atomicity ⟨-1, some (JSVal.num 3), some (JSVal.num 4)⟩
    ⟨false, false, 1280, 720, 1, []⟩ (by simp)

/-! ### C9: ticks at zero video dimensions -/

lemma focalLengthPixels_zero : focalLengthPixels 0 = 0 := by
  rw [focalLengthPixels, zero_div]

lemma poseMeasure_zero_dims : poseMeasure 0 0 [] = (JSVal.nan, JSVal.nan) := by
  have href : pixelSep 0 0 (lmGet [] 11) (lmGet [] 12) = 0 := pixelSep_self _ _ _
  have htar : pixelSep 0 0 (lmGet [] 15) (lmGet [] 16) = 0 := pixelSep_self _ _ _
  have hd : calculatedDistance 0 0 = JSVal.nan := by
    rw [calculatedDistance, focalLengthPixels_zero]
    norm_num [jsdiv]
  rw [poseMeasure, href, htar, wingspanCmVal, hd]
  simp [JSVal.mul, JSVal.div]

/-- Counterexample to C9 as stated: the code never checks the video
dimensions, so a playing, fresh-timestamp tick whose video surface is
0 × 0 DOES trigger a detection call, changes Measurement State, and
stores the non-finite value `NaN` (the focal length and all pixel
separations are zero, so `calculatedDistance = 0 / 0`). -/
theorem zero_dims_tick_still_detects :
    (⟨false, false, 0, 0, 1, [[]]⟩ : FrameInput).videoWidth = 0 ∧
    (⟨false, false, 0, 0, 1, [[]]⟩ : FrameInput).videoHeight = 0 ∧
    (detectPose ⟨-1, none, none⟩ ⟨false, false, 0, 0, 1, [[]]⟩).2 = true ∧
    (detectPose ⟨-1, none, none⟩ ⟨false, false, 0, 0, 1, [[]]⟩).1.distance =
      some JSVal.nan ∧
    JSVal.isFinite JSVal.nan = false := by
  rw [detectPose, if_neg (by simp), if_neg (by decide), if_pos (by decide)]
  refine ⟨rfl, rfl, rfl, ?_, rfl⟩
  show some (poseMeasure 0 0 []).1 = some JSVal.nan
  rw [poseMeasure_zero_dims]

/-- C9 (amended): a tick is a no-op (no detection, Measurement State
untouched) exactly when the video is paused or ended, or the timestamp
repeats; zero pixel dimensions are not checked and do not prevent a
detection call on a playing, fresh-timestamp tick. -/
theorem tick_noop_only_when_paused_or_ended (sp : PoseState) (i : FrameInput) :
    ((i.paused = true ∨ i.ended = true) → detectPose sp i = (sp, false)) ∧
    (i.paused = false → i.ended = false → i.currentTime = sp.lastVideoTime →
      detectPose sp i = (sp, false)) ∧
    (i.paused = false → i.ended = false → i.currentTime ≠ sp.lastVideoTime →
      (detectPose sp i).2 = true) := by
  refine ⟨?_, ?_, ?_⟩
  · intro h
    rw [detectPose, if_pos (by rcases h with h | h <;> simp [h])]
  · intro hp he ht
    rw [detectPose, if_neg (by simp [hp, he]), if_pos ht]
  · intro hp he ht
    rw [detectPose, if_neg (by simp [hp, he]), if_neg ht]
    split_ifs <;> rfl

/-- Witness for C9 (amended): a paused tick is a no-op; a playing
fresh-timestamp tick (even at zero dimensions) issues a detection. -/
theorem tick_noop_only_when_paused_or_ended_witness :
    detectPose ⟨-1, none, none⟩ ⟨true, false, 1280, 720, 1, [[]]⟩ =
      (⟨-1, none, none⟩, false) ∧
    detectPose ⟨5, none, none⟩ ⟨false, false, 1280, 720, 5, [[]]⟩ =
      (⟨5, none, none⟩, false) ∧
    (detectPose ⟨-1, none, none⟩ ⟨false, false, 0, 0, 2, [[]]⟩).2 = true :=
  ⟨(tick_noop_only_when_paused_or_ended ⟨-1, none, none⟩
      ⟨true, false, 1280, 720, 1, [[]]⟩).1 (Or.inl rfl),
   (tick_noop_only_when_paused_or_ended ⟨5, none, none⟩
      ⟨false, false, 1280, 720, 5, [[]]⟩).2.1 rfl rfl rfl,
   (tick_noop_only_when_paused_or_ended ⟨-1, none, none⟩
      ⟨false, false, 0, 0, 2, [[]]⟩).2.2 rfl rfl (by decide)⟩

/-! ### C5: subject-count gating of the Fixed-Distance pipeline -/

/-- C5: In Fixed-Distance mode, every processed frame with 0, 1 or 3
detected subjects yields the unavailable wingspan; every processed
frame with exactly 2 subjects and positive frame width yields a finite
value. -/
theorem fixed_distance_subject_count_gating (s : WingState) (i : FrameInput)
    (hp : i.paused = false) (he : i.ended = false)
    (ht : i.currentTime ≠ s.lastVideoTime) :
    ((i.frame.length = 0 ∨ i.frame.length = 1 ∨ i.frame.length = 3) →
      (detectHandsWingspan s i).1.wingspan = none) ∧
    (i.frame.length = 2 → 0 < i.videoWidth →
      ∃ x : ℝ, (detectHandsWingspan s i).1.wingspan = some (JSVal.num x)) := by
  rw [detectHandsWingspan, if_neg (by simp [hp, he]), if_neg ht]
  constructor
  · intro h013
    rw [if_neg (by rcases h013 with h | h | h <;> omega)]
  · intro h2 hW
    rw [if_pos h2]
    have hval : ∀ q : ℝ, wingspanFixedVal i.videoWidth q =
        JSVal.num (q * (fovWidthCm / i.videoWidth)) := by
      intro q
      rw [wingspanFixedVal, pixelToCmFactor, jsdiv_of_ne _ (ne_of_gt hW)]
      simp [JSVal.mul]
    exact ⟨_, congrArg some (hval _)⟩

/-- Witness for C5 on a processed two-hand 1280 × 720 frame. -/
theorem fixed_distance_subject_count_gating_witness :
    (((⟨false, false, 1280, 720, 1, [[], []]⟩ : FrameInput).frame.length = 0 ∨
      (⟨false, false, 1280, 720, 1, [[], []]⟩ : FrameInput).frame.length = 1 ∨
      (⟨false, false, 1280, 720, 1, [[], []]⟩ : FrameInput).frame.length = 3) →
      (detectHandsWingspan ⟨-1, none⟩
        ⟨false, false, 1280, 720, 1, [[], []]⟩).1.wingspan = none) ∧
    ((⟨false, false, 1280, 720, 1, [[], []]⟩ : FrameInput).frame.length = 2 →
      0 < (⟨false, false, 1280, 720, 1, [[], []]⟩ : FrameInput).videoWidth →
      ∃ x : ℝ, (detectHandsWingspan ⟨-1, none⟩
        ⟨false, false, 1280, 720, 1, [[], []]⟩).1.wingspan = some (JSVal.num x)) :=
  fixed_distance_subject_count_gating ⟨-1, none⟩ ⟨false, false, 1280, 720, 1, [[], []]⟩
    rfl rfl (by decide)

/-! ### C10: the hand-distance variant uses a fixed scale factor -/

/-- Modelled from the claim's words: fifty times the 3-D pixel
separation of the two middle-finger tips (x scaled by frame width, y by
frame height, z by frame width), divided by the frame width — with no
field-of-view, focal length, or calibration-mode term. -/
noncomputable def claimHandDistanceCm (W H : ℝ) (f1 f2 : Landmark) : ℝ :=
  50 * Real.sqrt (((f2.x - f1.x) * W) * ((f2.x - f1.x) * W) +
    ((f2.y - f1.y) * H) * ((f2.y - f1.y) * H) +
    ((f2.z - f1.z) * W) * ((f2.z - f1.z) * W)) / W

/-- C10: on every processed frame with exactly two detected hands and
positive frame width, the hand-distance variant stores exactly
`50 * sep3d / W` cm, where `sep3d` is the 3-D pixel separation of the
two index-12 fingertips — a fixed scale with no FOV, focal-length or
calibration-mode dependence. -/
theorem hand_distance_fixed_scale (s : HandState) (i : FrameInput)
    (hand1 hand2 : List Landmark)
    (hp : i.paused = false) (he : i.ended = false)
    (ht : i.currentTime ≠ s.lastVideoTime) (hfr : i.frame = [hand1, hand2])
    (hW : 0 < i.videoWidth) :
    (detectHandsDistance s i).1.distance =
      some (JSVal.num (claimHandDistanceCm i.videoWidth i.videoHeight
        (lmGet hand1 12) (lmGet hand2 12))) := by
  rw [detectHandsDistance, if_neg (by simp [hp, he]), if_neg ht,
    if_pos (by rw [hfr]; rfl)]
  show some (distanceCmVal i.videoWidth i.videoHeight
    (i.frame.headD []) (i.frame.getD 1 [])) = _
  rw [hfr]
  show some (distanceCmVal i.videoWidth i.videoHeight hand1 hand2) = _
  rw [distanceCmVal, jsdiv_of_ne _ (ne_of_gt hW)]
  simp only [JSVal.mul]
  congr 1
  rw [claimHandDistanceCm, pixelSep3]
  ring_nf

/-- Witness for C10 on a concrete processed two-hand frame. -/
theorem hand_distance_fixed_scale_witness :
    (detectHandsDistance ⟨-1, none⟩
      ⟨false, false, 1280, 720, 1, [[], []]⟩).1.distance =
      some (JSVal.num (claimHandDistanceCm 1280 720 (lmGet [] 12) (lmGet [] 12))) :=
  hand_distance_fixed_scale ⟨-1, none⟩ ⟨false, false, 1280, 720, 1, [[], []]⟩ [] []
    rfl rfl (by decide) rfl (by show (0 : ℝ) < 1280; norm_num)

/-! ### Numeric bounds on tan 35° via three half-angle doublings

`35° = 7π/36 = 8 · (7π/288)`.  The base angle `7π/288 ≈ 0.0764` is
small enough for the quartic Taylor bounds `Real.sin_bound` and
`Real.cos_bound` to give seven-decimal intervals, which are then pushed
through `tan (2x) = 2 tan x / (1 - tan x ^ 2)` three times. -/

lemma sin7pi288_bounds :
    (0.0762821 : ℝ) < Real.sin (7 * Real.pi / 288) ∧
    Real.sin (7 * Real.pi / 288) < 0.0762858 := by
  have hpl := Real.pi_gt_d6
  have hpu := Real.pi_lt_d6
  have hy1 : (0.07635813 : ℝ) < 7 * Real.pi / 288 := by nlinarith
  have hy2 : 7 * Real.pi / 288 < (0.07635817 : ℝ) := by nlinarith
  have hy0 : (0 : ℝ) < 7 * Real.pi / 288 := by nlinarith
  have habs : |7 * Real.pi / 288| ≤ 1 := by rw [abs_of_pos hy0]; nlinarith
  have hb := abs_le.mp (Real.sin_bound habs)
  rw [abs_of_pos hy0] at hb
  obtain ⟨hbl, hbu⟩ := hb
  have h3u : (7 * Real.pi / 288) ^ 3 < (0.07635817 : ℝ) ^ 3 :=
    pow_lt_pow_left₀ hy2 hy0.le (by norm_num)
  have h3l : (0.07635813 : ℝ) ^ 3 < (7 * Real.pi / 288) ^ 3 :=
    pow_lt_pow_left₀ hy1 (by norm_num) (by norm_num)
  have h4u : (7 * Real.pi / 288) ^ 4 < (0.07635817 : ℝ) ^ 4 :=
    pow_lt_pow_left₀ hy2 hy0.le (by norm_num)
  have h4p : (0 : ℝ) ≤ (7 * Real.pi / 288) ^ 4 := by positivity
  have e3u : (0.07635817 : ℝ) ^ 3 < 0.00044522 := by norm_num
  have e3l : (0.00044520 : ℝ) < (0.07635813 : ℝ) ^ 3 := by norm_num
  have e4u : (0.07635817 : ℝ) ^ 4 < 0.000034 := by norm_num
  constructor
  · linarith
  · linarith

lemma cos7pi288_bounds :
    (0.9970829 : ℝ) < Real.cos (7 * Real.pi / 288) ∧
    Real.cos (7 * Real.pi / 288) < 0.9970865 := by
  have hpl := Real.pi_gt_d6
  have hpu := Real.pi_lt_d6
  have hy1 : (0.07635813 : ℝ) < 7 * Real.pi / 288 := by nlinarith
  have hy2 : 7 * Real.pi / 288 < (0.07635817 : ℝ) := by nlinarith
  have hy0 : (0 : ℝ) < 7 * Real.pi / 288 := by nlinarith
  have habs : |7 * Real.pi / 288| ≤ 1 := by rw [abs_of_pos hy0]; nlinarith
  have hb := abs_le.mp (Real.cos_bound habs)
  rw [abs_of_pos hy0] at hb
  obtain ⟨hbl, hbu⟩ := hb
  have h2u : (7 * Real.pi / 288) ^ 2 < (0.07635817 : ℝ) ^ 2 :=
    pow_lt_pow_left₀ hy2 hy0.le (by norm_num)
  have h2l : (0.07635813 : ℝ) ^ 2 < (7 * Real.pi / 288) ^ 2 :=
    pow_lt_pow_left₀ hy1 (by norm_num) (by norm_num)
  have h4u : (7 * Real.pi / 288) ^ 4 < (0.07635817 : ℝ) ^ 4 :=
    pow_lt_pow_left₀ hy2 hy0.le (by norm_num)
  have h4p : (0 : ℝ) ≤ (7 * Real.pi / 288) ^ 4 := by positivity
  have e2u : (0.07635817 : ℝ) ^ 2 < 0.0058306 := by norm_num
  have e2l : (0.00583056 : ℝ) < (0.07635813 : ℝ) ^ 2 := by norm_num
  have e4u : (0.07635817 : ℝ) ^ 4 < 0.000034 := by norm_num
  constructor
  · linarith
  · linarith

lemma tan7pi288_bounds :
    (0.0765049 : ℝ) < Real.tan (7 * Real.pi / 288) ∧
    Real.tan (7 * Real.pi / 288) < 0.0765090 := by
  obtain ⟨hs1, hs2⟩ := sin7pi288_bounds
  obtain ⟨hc1, hc2⟩ := cos7pi288_bounds
  have hc0 : (0 : ℝ) < Real.cos (7 * Real.pi / 288) := by linarith
  rw [Real.tan_eq_sin_div_cos]
  constructor
  · rw [lt_div_iff₀ hc0]
    nlinarith
  · rw [div_lt_iff₀ hc0]
    nlinarith

/-- One tan half-angle doubling step with rational interval endpoints. -/
lemma tan_double_bounds {x a b : ℝ} (a2 b2 : ℝ) (ha : a < Real.tan x) (hb : Real.tan x < b)
    (ha0 : 0 < a) (hb1 : b < 1) (hA0 : 0 < a2) (hB0 : 0 < b2)
    (hA : a2 * (1 - a ^ 2) ≤ 2 * a) (hB : 2 * b ≤ b2 * (1 - b ^ 2)) :
    a2 < Real.tan (2 * x) ∧ Real.tan (2 * x) < b2 := by
  have ht0 : 0 < Real.tan x := lt_trans ha0 ha
  have ht1 : Real.tan x < 1 := lt_trans hb hb1
  have hbpos : 0 < b := lt_trans ht0 hb
  have hden : 0 < 1 - Real.tan x ^ 2 := by nlinarith
  rw [Real.tan_two_mul]
  constructor
  · rw [lt_div_iff₀ hden]
    nlinarith [mul_pos hA0 (mul_pos (sub_pos.mpr ha) (add_pos ht0 ha0))]
  · rw [div_lt_iff₀ hden]
    nlinarith [mul_pos hB0 (mul_pos (sub_pos.mpr hb) (add_pos hbpos ht0))]

lemma tan7pi144_bounds :
    (0.1539106 : ℝ) < Real.tan (7 * Real.pi / 144) ∧
    Real.tan (7 * Real.pi / 144) < 0.1539190 := by
  obtain ⟨h1, h2⟩ := tan7pi288_bounds
  have hd := tan_double_bounds 0.1539106 0.1539190 h1 h2 (by norm_num) (by norm_num)
    (by norm_num) (by norm_num) (by norm_num) (by norm_num)
  rwa [show 2 * (7 * Real.pi / 288) = 7 * Real.pi / 144 by ring] at hd

lemma tan7pi72_bounds :
    (0.3152899 : ℝ) < Real.tan (7 * Real.pi / 72) ∧
    Real.tan (7 * Real.pi / 72) < 0.3153080 := by
  obtain ⟨h1, h2⟩ := tan7pi144_bounds
  have hd := tan_double_bounds 0.3152899 0.3153080 h1 h2 (by norm_num) (by norm_num)
    (by norm_num) (by norm_num) (by norm_num) (by norm_num)
  rwa [show 2 * (7 * Real.pi / 144) = 7 * Real.pi / 72 by ring] at hd

lemma tan35_bounds :
    (0.7001834 : ℝ) < Real.tan ((70 / 2) * (Real.pi / 180)) ∧
    Real.tan ((70 / 2) * (Real.pi / 180)) < 0.7002326 := by
  obtain ⟨h1, h2⟩ := tan7pi72_bounds
  have hd := tan_double_bounds 0.7001834 0.7002326 h1 h2 (by norm_num) (by norm_num)
    (by norm_num) (by norm_num) (by norm_num) (by norm_num)
  rwa [show 2 * (7 * Real.pi / 72) = (70 / 2) * (Real.pi / 180) by ring] at hd

lemma focalLengthPixels_1280_bounds :
    (913.9 : ℝ) < focalLengthPixels 1280 ∧ focalLengthPixels 1280 < 914.1 := by
  obtain ⟨hl, hu⟩ := tan35_bounds
  have ht0 : 0 < Real.tan ((70 / 2) * (Real.pi / 180)) := tan35_pos
  rw [focalLengthPixels]
  constructor
  · rw [lt_div_iff₀ (mul_pos two_pos ht0)]
    nlinarith
  · rw [div_lt_iff₀ (mul_pos two_pos ht0)]
    nlinarith

/-! ### C7: the FOV = 70°, W = 1280 scenario -/

/-- The scenario subject: shoulders at normalized (0.40, 0.50) and
(0.60, 0.50), wrists at (0.10, 0.50) and (0.90, 0.50). -/
noncomputable def scenarioSubject : List Landmark :=
  [⟨0, 0, 0⟩, ⟨0, 0, 0⟩, ⟨0, 0, 0⟩, ⟨0, 0, 0⟩, ⟨0, 0, 0⟩, ⟨0, 0, 0⟩,
   ⟨0, 0, 0⟩, ⟨0, 0, 0⟩, ⟨0, 0, 0⟩, ⟨0, 0, 0⟩, ⟨0, 0, 0⟩,
   ⟨0.40, 0.50, 0⟩, ⟨0.60, 0.50, 0⟩, ⟨0, 0, 0⟩, ⟨0, 0, 0⟩,
   ⟨0.10, 0.50, 0⟩, ⟨0.90, 0.50, 0⟩]

lemma poseMeasure_scenario :
    poseMeasure 1280 720 scenarioSubject =
      (JSVal.num (45 * focalLengthPixels 1280 / 256), JSVal.num 180) := by
  have hf : 0 < focalLengthPixels 1280 := focalLengthPixels_pos (by norm_num)
  have href : pixelSep 1280 720 (lmGet scenarioSubject 11) (lmGet scenarioSubject 12) =
      256 := by
    rw [show lmGet scenarioSubject 11 = (⟨0.40, 0.50, 0⟩ : Landmark) from rfl,
      show lmGet scenarioSubject 12 = (⟨0.60, 0.50, 0⟩ : Landmark) from rfl,
      pixelSep_horizontal 1280 720 ⟨0.40, 0.50, 0⟩ ⟨0.60, 0.50, 0⟩ rfl (by norm_num)]
    norm_num
  have htar : pixelSep 1280 720 (lmGet scenarioSubject 15) (lmGet scenarioSubject 16) =
      1024 := by
    rw [show lmGet scenarioSubject 15 = (⟨0.10, 0.50, 0⟩ : Landmark) from rfl,
      show lmGet scenarioSubject 16 = (⟨0.90, 0.50, 0⟩ : Landmark) from rfl,
      pixelSep_horizontal 1280 720 ⟨0.10, 0.50, 0⟩ ⟨0.90, 0.50, 0⟩ rfl (by norm_num)]
    norm_num
  have hd : calculatedDistance 1280 256 = JSVal.num (45 * focalLengthPixels 1280 / 256) := by
    rw [calculatedDistance, jsdiv_of_ne _ (by norm_num : (256 : ℝ) ≠ 0)]
    norm_num [ASSUMED_SHOULDER_WIDTH_CM]
  rw [poseMeasure, href, htar, wingspanCmVal, hd]
  simp only [JSVal.mul, JSVal.div]
  rw [jsdiv_of_ne _ (ne_of_gt hf)]
  norm_num
  rw [div_eq_iff (ne_of_gt hf)]
  ring

/-- Counterexample to C7 as stated: at the scenario input the computed
wingspan is EXACTLY 180 cm (not ≈ 179.6: the error is 0.4 cm), and the
computed focal length lies below 914.1 px (not ≈ 914.9: the error
exceeds 0.8 px).  Algebraically the wingspan `p_t · (L_ref·f/p_ref)/f`
collapses to `1024 · 45 / 256 = 180` for any focal length. -/
theorem scenario_claim_refuted :
    (poseMeasure 1280 720 scenarioSubject).2 = JSVal.num 180 ∧
    |(180 : ℝ) - 179.6| = 0.4 ∧
    focalLengthPixels 1280 < 914.1 ∧
    0.8 < |focalLengthPixels 1280 - 914.9| := by
  obtain ⟨hl, hu⟩ := focalLengthPixels_1280_bounds
  refine ⟨by rw [poseMeasure_scenario], by rw [abs_of_pos] <;> norm_num, hu, ?_⟩
  rw [abs_of_neg (by linarith)]
  linarith

/-- C7 (amended): at the scenario input the pipeline computes
`f = 1280 / (2 tan 35°) ∈ (913.9, 914.1)` (≈ 914.0 px, not 914.9),
distance `D = 45 · f / 256 ∈ (160.64, 160.69)` (≈ 160.7 cm), and a
wingspan of exactly 180 cm (not 179.6). -/
theorem scenario_exact_values :
    (poseMeasure 1280 720 scenarioSubject).1 =
      JSVal.num (45 * focalLengthPixels 1280 / 256) ∧
    (poseMeasure 1280 720 scenarioSubject).2 = JSVal.num 180 ∧
    (913.9 : ℝ) < focalLengthPixels 1280 ∧ focalLengthPixels 1280 < 914.1 ∧
    (160.64 : ℝ) < 45 * focalLengthPixels 1280 / 256 ∧
    45 * focalLengthPixels 1280 / 256 < 160.69 := by
  obtain ⟨hl, hu⟩ := focalLengthPixels_1280_bounds
  refine ⟨by rw [poseMeasure_scenario], by rw [poseMeasure_scenario], hl, hu, ?_, ?_⟩
  · rw [lt_div_iff₀ (by norm_num : (0 : ℝ) < 256)]
    linarith
  · rw [div_lt_iff₀ (by norm_num : (0 : ℝ) < 256)]
    linarith
